import Mathlib

/-!
Shallow embedding of the Hyprland window-switcher plugin
(`src/__init__.py`), faithful to the Python source.

The external boundaries are made explicit parameters:
  * the filesystem of application descriptor files is an association list
    from absolute path to the file's lines;
  * the output of `hyprctl clients -j` (after `subprocess.check_output`
    and `json.loads`) is an `Except FetchError (List RawWindow)` — an
    `error` models the invocation raising `CalledProcessError` or the
    payload raising `JSONDecodeError`;
  * the albert `Matcher` (built once per query from the query string and
    the fuzzy flag) is an arbitrary predicate `String → Bool`;
  * `runDetachedProcess` is modelled by recording the argv of each
    detached invocation, in order, as a `List (List String)`.

Python string primitives used by the source (`str.strip`, `str.split`,
`str.startswith`) are re-implemented over `List Char` with Python's
semantics so that every definition is executable by the kernel.
-/

namespace HyprSwitcher

/-- Python `str.isspace` characters, as used by `str.strip()`. -/
def isPySpace (c : Char) : Bool :=
  c = ' ' || c = '\t' || c = '\n' || c = '\r' || c = '\x0b' || c = '\x0c'

/-- Drop characters satisfying `p` from both ends of a character list. -/
def stripEnds (p : Char → Bool) (s : List Char) : List Char :=
  ((s.dropWhile p).reverse.dropWhile p).reverse

/-- Python `line.strip()`: remove leading and trailing whitespace. -/
def pyStrip (s : String) : String :=
  String.mk (stripEnds isPySpace s.toList)

/-- Python `line.strip("][")`: remove leading and trailing `[` / `]`. -/
def pyStripBrackets (s : String) : String :=
  String.mk (stripEnds (fun c => c = '[' || c = ']') s.toList)

/-- Python `s.startswith(pre)`. -/
def pyStartsWith (pre s : String) : Bool :=
  pre.toList.isPrefixOf s.toList

/-- Worker for `pySplit`: accumulate the current piece (reversed). -/
def pySplitAux (sep : Char) : List Char → List Char → List (List Char)
  | [], acc => [acc.reverse]
  | c :: cs, acc =>
    if c = sep then acc.reverse :: pySplitAux sep cs []
    else pySplitAux sep cs (c :: acc)

/-- Python `s.split(sep)` with a one-character separator:
`"".split(sep) = [""]`, and n separators yield n+1 pieces. -/
def pySplit (sep : Char) (s : String) : List String :=
  (pySplitAux sep s.toList []).map String.mk

/-- One open window, as the `Window` dataclass holds it after
`__init__` ran (including the enrichment done by `parseDesktopFile`
and the `self.name = self.name or self.classs` fallback).
`workspace` is the raw key-value object reported by the compositor;
the plugin never reads it, so its values are kept as strings. -/
structure Window where
  address : String
  title : String
  classs : String
  initialTitle : String
  initialClass : String
  at_ : Int × Int
  size : Int × Int
  workspace : List (String × String)
  floating : Bool
  hidden : Bool
  monitor : Int
  pid : Int
  xwayland : Bool
  pinned : Bool
  fullscreen : Bool
  grouped : List String
  focusHistoryID : Int
  name : String
  icon : String
  deriving DecidableEq, Repr

/-- One entry of the JSON array returned by `hyprctl clients -j`, split
the way `Window.__init__(self, address, ..., focusHistoryID, **kwargs)`
receives it: the named parameters, plus the catch-all keyword arguments
(notably the `"class"` key, which is a reserved word in Python and so
cannot be a named parameter). -/
structure RawWindow where
  address : String
  title : String
  initialTitle : String
  initialClass : String
  at_ : Int × Int
  size : Int × Int
  workspace : List (String × String)
  floating : Bool
  hidden : Bool
  monitor : Int
  pid : Int
  xwayland : Bool
  pinned : Bool
  fullscreen : Bool
  grouped : List String
  focusHistoryID : Int
  kwargs : List (String × String)
  deriving DecidableEq, Repr

/-- Failure of the snapshot acquisition boundary:
`toolFailed` models `subprocess.check_output` raising
`CalledProcessError` (or the binary failing), `malformedData` models
`json.loads` raising `JSONDecodeError` on the tool's output. -/
inductive FetchError where
  | toolFailed (msg : String)
  | malformedData (msg : String)
  deriving DecidableEq, Repr

/-- An exception escaping a query-time operation of the plugin:
either a propagated fetch failure, or a Python `KeyError` on a
missing dictionary key. -/
inductive QueryError where
  | fetch (e : FetchError)
  | keyError (key : String)
  deriving DecidableEq, Repr

/-- `/usr/share/applications/{base}.desktop`. -/
def desktopPath (base : String) : String :=
  "/usr/share/applications/" ++ base ++ ".desktop"

/-- The line scan of `Window.parseDesktopFile`, state-passed:
`cur` is `current_section`, `nm` is `self.name`, `ic` is `self.icon`.
Mirrors the Python `while line := fp.readline()` loop body:
strip the line; a line starting with `[` updates the section;
otherwise the `Icon=` branch fires only when `self.icon` is falsy
(empty) and the section is `Desktop Entry`; otherwise the `Name=`
branch fires only when `self.name` is falsy and the section is
`Desktop Entry`; the captured value is `line.split("=")[1]`. -/
def parseDesktopLines : List String → String → String → String → String × String
  | [], _cur, nm, ic => (nm, ic)
  | l :: rest, cur, nm, ic =>
    let line := pyStrip l
    if pyStartsWith "[" line then
      parseDesktopLines rest (pyStripBrackets line) nm ic
    else if ic = "" && pyStartsWith "Icon=" line && cur = "Desktop Entry" then
      parseDesktopLines rest cur nm ((pySplit '=' line).getD 1 "")
    else if nm = "" && pyStartsWith "Name=" line && cur = "Desktop Entry" then
      parseDesktopLines rest cur ((pySplit '=' line).getD 1 "") ic
    else
      parseDesktopLines rest cur nm ic

/-- `Window.parseDesktopFile`, over an explicit filesystem `fs`
(path ↦ lines). Tries `{classs}.desktop`, then
`{classs.split('.')[-1]}.desktop`; if the chosen file exists it is
scanned from the initial state `current_section = ""`, `name = ""`,
`icon = classs`; otherwise those initial values stand.
Returns the final `(name, icon)` pair. -/
def parseDesktopFile (fs : List (String × List String)) (classs : String) : String × String :=
  let file1 := desktopPath classs
  let file2 := desktopPath ((pySplit '.' classs).getLastD "")
  let chosen := if (fs.lookup file1).isSome then fs.lookup file1 else fs.lookup file2
  match chosen with
  | none => ("", classs)
  | some lines => parseDesktopLines lines "" "" classs

/-- `Window.__init__`: copy the named fields, read the application
class from the catch-all keyword arguments (`self.classs =
kwargs["class"]`: `none` models the `KeyError` when absent), run
`parseDesktopFile`, then `self.name = self.name or self.classs`. -/
def Window.init (fs : List (String × List String)) (r : RawWindow) : Option Window :=
  match r.kwargs.lookup "class" with
  | none => none
  | some cls =>
    let ni := parseDesktopFile fs cls
    some
      { address := r.address
        title := r.title
        classs := cls
        initialTitle := r.initialTitle
        initialClass := r.initialClass
        at_ := r.at_
        size := r.size
        workspace := r.workspace
        floating := r.floating
        hidden := r.hidden
        monitor := r.monitor
        pid := r.pid
        xwayland := r.xwayland
        pinned := r.pinned
        fullscreen := r.fullscreen
        grouped := r.grouped
        focusHistoryID := r.focusHistoryID
        name := if ni.1 = "" then cls else ni.1
        icon := ni.2 }

/-- The loop body of `Window.list_windows`: construct each `Window`
in order (a construction failure — the `KeyError` on `"class"` —
propagates immediately), skip those whose class is `"albert"`,
keep the rest in order. -/
def buildWindows (fs : List (String × List String)) :
    List RawWindow → Except QueryError (List Window)
  | [] => .ok []
  | r :: rs =>
    match Window.init fs r with
    | none => .error (.keyError "class")
    | some w =>
      match buildWindows fs rs with
      | .error e => .error e
      | .ok ws => .ok (if w.classs = "albert" then ws else w :: ws)

/-- `Window.list_windows`: a failed `hyprctl clients -j` fetch
(`check_output` raising, or `json.loads` raising) propagates out of
the function — there is no handler in the source — otherwise the
records are constructed and filtered by `buildWindows`. -/
def list_windows (fs : List (String × List String))
    (fetch : Except FetchError (List RawWindow)) : Except QueryError (List Window) :=
  match fetch with
  | .error e => .error (.fetch e)
  | .ok raws => buildWindows fs raws

/-- `Window.current_workspace_id`: a failed fetch of
`hyprctl activeworkspace -j` propagates; otherwise `output["id"]`
(a `KeyError` when the key is missing). -/
def current_workspace_id (wfetch : Except FetchError (List (String × Int))) :
    Except QueryError Int :=
  match wfetch with
  | .error e => .error (.fetch e)
  | .ok output => match output.lookup "id" with
    | none => .error (.keyError "id")
    | some id => .ok id

/-- The list comprehension of `Plugin.handleGlobalQuery`: keep the
windows for which the matcher `m` accepts at least one of `classs`,
`name`, `title`, `initialClass`, `initialTitle`. -/
def matchedWindows (m : String → Bool) (ws : List Window) : List Window :=
  ws.filter fun w =>
    m w.classs || m w.name || m w.title || m w.initialClass || m w.initialTitle

/-- Stable insertion used to model CPython `list.sort(key=lambda x:
x.focusHistoryID, reverse=True)`: `w` is placed before the first
element whose key is less than or equal to `w`'s, so an element is
never moved past an equal-keyed one. -/
def insertByFocusDesc (w : Window) : List Window → List Window
  | [] => [w]
  | x :: xs =>
    if x.focusHistoryID ≤ w.focusHistoryID then w :: x :: xs
    else x :: insertByFocusDesc w xs

/-- `windows.sort(key=lambda x: x.focusHistoryID, reverse=True)`:
CPython's sort is stable and `reverse=True` orders by descending key
while keeping equal-keyed elements in their original order; a stable
descending sort is extensionally unique, so this insertion sort is
that function. -/
def sortByFocusDesc : List Window → List Window
  | [] => []
  | w :: rest => insertByFocusDesc w (sortByFocusDesc rest)

/-- The pure tail of `Plugin.handleGlobalQuery`: filter by the
matcher, then sort by focus history. The `RankItem` wrapper gives
every window the same constant score 1, so the window sequence is
the observable output. -/
def queryWindows (m : String → Bool) (ws : List Window) : List Window :=
  sortByFocusDesc (matchedWindows m ws)

/-- `Plugin.handleGlobalQuery`: fetch the window list (errors
propagate), fetch the current workspace id (errors propagate), then
filter and sort. -/
def handleGlobalQuery (fs : List (String × List String))
    (fetch : Except FetchError (List RawWindow))
    (wfetch : Except FetchError (List (String × Int)))
    (m : String → Bool) : Except QueryError (List Window) :=
  match list_windows fs fetch with
  | .error e => .error e
  | .ok windows =>
    match current_workspace_id wfetch with
    | .error e => .error e
    | .ok _current_workspace => .ok (queryWindows m windows)

/-- The argv of `hyprctl dispatch focuswindow address:<address>`. -/
def focusInvocation (address : String) : List String :=
  ["hyprctl", "dispatch", "focuswindow", "address:" ++ address]

/-- The argv of `hyprctl dispatch movetoworkspace <workspace_id>`. -/
def moveInvocation (workspace_id : Int) : List String :=
  ["hyprctl", "dispatch", "movetoworkspace", toString workspace_id]

/-- The argv of `hyprctl dispatch closewindow address:<address>`. -/
def closeInvocation (address : String) : List String :=
  ["hyprctl", "dispatch", "closewindow", "address:" ++ address]

/-- `Plugin._focus_window`: the detached invocations it issues, in order. -/
def focus_window (address : String) : List (List String) :=
  [focusInvocation address]

/-- `Plugin._move_window_here`: the detached invocations it issues, in
order — one `runDetachedProcess` for the focus dispatch, then a second
one for the move dispatch. -/
def move_window_here (address : String) (workspace_id : Int) : List (List String) :=
  [focusInvocation address, moveInvocation workspace_id]

/-- `Plugin._close_window`: the detached invocations it issues, in order. -/
def close_window (address : String) : List (List String) :=
  [closeInvocation address]

/-! Concrete fixtures used by closed theorems and by witnesses. -/

/-- A raw snapshot record whose only catch-all keyword argument is the
`"class"` key. -/
def rawWin (addr cls : String) (rank : Int) : RawWindow :=
  { address := addr, title := "Title " ++ addr, initialTitle := "Title " ++ addr,
    initialClass := cls, at_ := (0, 0), size := (800, 600),
    workspace := [("id", "1")], floating := false, hidden := false,
    monitor := 0, pid := 100, xwayland := false, pinned := false,
    fullscreen := false, grouped := [], focusHistoryID := rank,
    kwargs := [("class", cls)] }

/-- The window `Window.__init__` builds from `rawWin addr cls rank` when no
descriptor file exists: `name` and `icon` both fall back to the class. -/
def plainWin (addr cls : String) (rank : Int) : Window :=
  { address := addr, title := "Title " ++ addr, classs := cls,
    initialTitle := "Title " ++ addr, initialClass := cls, at_ := (0, 0),
    size := (800, 600), workspace := [("id", "1")], floating := false,
    hidden := false, monitor := 0, pid := 100, xwayland := false,
    pinned := false, fullscreen := false, grouped := [],
    focusHistoryID := rank, name := cls, icon := cls }

/-- The most recently focused test window (focus history rank 0). -/
def winRecent : Window := plainWin "0x1" "app1" 0

/-- A less recently focused test window (focus history rank 5). -/
def winOld : Window := plainWin "0x2" "app2" 5

/-- The enriched window built from `rawWin "0x10" "firefox" 1`. -/
def winFirefox : Window := plainWin "0x10" "firefox" 1

/-- The enriched window built from `rawWin "0x20" "myapp.Weird" 2`. -/
def winWeird : Window := plainWin "0x20" "myapp.Weird" 2

/-- The descriptor-file example of the specification: a `Desktop Entry`
section carrying both `Name=` and `Icon=`, then another section with a
second `Name=`. -/
def specExampleFs : List (String × List String) :=
  [(desktopPath "myapp",
    ["[Desktop Entry]", "Name=My App", "Icon=my-icon", "[Other]", "Name=Ignored"])]

/-- A descriptor file whose `Name=` value itself contains an `=`. -/
def eqSignFs : List (String × List String) :=
  [(desktopPath "myapp2", ["[Desktop Entry]", "Name=My App=Pro"])]

/-! Helper lemmas about the embedded operations. -/

theorem mem_insertByFocusDesc (w a : Window) (l : List Window) :
    a ∈ insertByFocusDesc w l ↔ a = w ∨ a ∈ l := by
  induction l with
  | nil => simp [insertByFocusDesc]
  | cons x xs ih =>
    rw [insertByFocusDesc]
    by_cases hx : x.focusHistoryID ≤ w.focusHistoryID
    · rw [if_pos hx]; simp
    · rw [if_neg hx]; simp [ih]; tauto

theorem mem_sortByFocusDesc (a : Window) (l : List Window) :
    a ∈ sortByFocusDesc l ↔ a ∈ l := by
  induction l with
  | nil => simp [sortByFocusDesc]
  | cons x xs ih =>
    rw [sortByFocusDesc, mem_insertByFocusDesc]
    simp [ih]

theorem pairwise_insertByFocusDesc (w : Window) (l : List Window)
    (h : l.Pairwise (fun a b => b.focusHistoryID ≤ a.focusHistoryID)) :
    (insertByFocusDesc w l).Pairwise
      (fun a b => b.focusHistoryID ≤ a.focusHistoryID) := by
  induction l with
  | nil => simp [insertByFocusDesc]
  | cons x xs ih =>
    rw [insertByFocusDesc]
    rcases List.pairwise_cons.mp h with ⟨h1, h2⟩
    by_cases hx : x.focusHistoryID ≤ w.focusHistoryID
    · rw [if_pos hx]
      refine List.pairwise_cons.mpr ⟨?_, h⟩
      intro b hb
      rcases List.mem_cons.mp hb with rfl | hb
      · exact hx
      · exact le_trans (h1 b hb) hx
    · rw [if_neg hx]
      refine List.pairwise_cons.mpr ⟨?_, ih h2⟩
      intro b hb
      rcases (mem_insertByFocusDesc w b xs).mp hb with rfl | hb
      · exact le_of_not_le hx
      · exact h1 b hb

theorem pairwise_sortByFocusDesc (l : List Window) :
    (sortByFocusDesc l).Pairwise
      (fun a b => b.focusHistoryID ≤ a.focusHistoryID) := by
  induction l with
  | nil => simp [sortByFocusDesc]
  | cons x xs ih =>
    rw [sortByFocusDesc]
    exact pairwise_insertByFocusDesc x (sortByFocusDesc xs) ih

theorem filter_insertByFocusDesc (k : Int) (w : Window) (l : List Window) :
    (insertByFocusDesc w l).filter (fun x => decide (x.focusHistoryID = k)) =
      if w.focusHistoryID = k then
        w :: l.filter (fun x => decide (x.focusHistoryID = k))
      else l.filter (fun x => decide (x.focusHistoryID = k)) := by
  induction l with
  | nil => by_cases hk : w.focusHistoryID = k <;> simp [insertByFocusDesc, hk]
  | cons x xs ih =>
    rw [insertByFocusDesc]
    by_cases hx : x.focusHistoryID ≤ w.focusHistoryID
    · rw [if_pos hx]
      by_cases hk : w.focusHistoryID = k <;> simp [List.filter_cons, hk]
    · rw [if_neg hx]
      by_cases hk : w.focusHistoryID = k
      · have hxk : ¬ x.focusHistoryID = k := by
          intro hxe; exact hx (le_of_eq (hxe.trans hk.symm))
        simp [List.filter_cons, hxk, ih, hk]
      · simp [List.filter_cons, ih, hk]

theorem filter_sortByFocusDesc (k : Int) (l : List Window) :
    (sortByFocusDesc l).filter (fun x => decide (x.focusHistoryID = k)) =
      l.filter (fun x => decide (x.focusHistoryID = k)) := by
  induction l with
  | nil => simp [sortByFocusDesc]
  | cons x xs ih =>
    rw [sortByFocusDesc, filter_insertByFocusDesc]
    by_cases hk : x.focusHistoryID = k <;> simp [List.filter_cons, hk, ih]

theorem Window.init_eq (fs : List (String × List String)) (r : RawWindow)
    (cls : String) (hcls : r.kwargs.lookup "class" = some cls) :
    Window.init fs r = some
      { address := r.address, title := r.title, classs := cls,
        initialTitle := r.initialTitle, initialClass := r.initialClass,
        at_ := r.at_, size := r.size, workspace := r.workspace,
        floating := r.floating, hidden := r.hidden, monitor := r.monitor,
        pid := r.pid, xwayland := r.xwayland, pinned := r.pinned,
        fullscreen := r.fullscreen, grouped := r.grouped,
        focusHistoryID := r.focusHistoryID,
        name := if (parseDesktopFile fs cls).1 = "" then cls
          else (parseDesktopFile fs cls).1,
        icon := (parseDesktopFile fs cls).2 } := by
  unfold Window.init
  rw [hcls]

theorem Window.init_none (fs : List (String × List String)) (r : RawWindow)
    (hnone : r.kwargs.lookup "class" = none) :
    Window.init fs r = none := by
  unfold Window.init
  rw [hnone]

theorem parseDesktopFile_not_found (fs : List (String × List String))
    (cls : String)
    (h1 : fs.lookup (desktopPath cls) = none)
    (h2 : fs.lookup (desktopPath ((pySplit '.' cls).getLastD "")) = none) :
    parseDesktopFile fs cls = ("", cls) := by
  have h2x : fs.lookup (desktopPath ((pySplit '.' cls).getLast?.getD "")) = none := by
    simpa using h2
  simp [parseDesktopFile, h1, h2x]

theorem buildWindows_no_albert (fs : List (String × List String))
    (raws : List RawWindow) (ws : List Window)
    (h : buildWindows fs raws = .ok ws) (w : Window) (hw : w ∈ ws) :
    w.classs ≠ "albert" := by
  induction raws generalizing ws with
  | nil =>
    simp only [buildWindows] at h
    injection h with h
    subst h
    cases hw
  | cons r rs ih =>
    simp only [buildWindows] at h
    split at h
    next heq => exact Except.noConfusion h
    next win heq =>
      split at h
      next e heq2 => exact Except.noConfusion h
      next ws2 heq2 =>
        injection h with h
        subst h
        by_cases hcls : win.classs = "albert"
        · rw [if_pos hcls] at hw
          exact ih ws2 heq2 hw
        · rw [if_neg hcls] at hw
          rcases List.mem_cons.mp hw with rfl | hw2
          · exact hcls
          · exact ih ws2 heq2 hw2

theorem list_windows_no_albert (fs : List (String × List String))
    (fetch : Except FetchError (List RawWindow)) (ws : List Window)
    (h : list_windows fs fetch = .ok ws) (w : Window) (hw : w ∈ ws) :
    w.classs ≠ "albert" := by
  cases fetch with
  | error e => exact Except.noConfusion h
  | ok raws => exact buildWindows_no_albert fs raws ws h w hw

theorem queryWindows_subset (m : String → Bool) (ws : List Window) (w : Window)
    (hw : w ∈ queryWindows m ws) : w ∈ ws := by
  rw [queryWindows, mem_sortByFocusDesc] at hw
  exact (List.mem_filter.mp hw).1

theorem buildWindows_missing_class (fs : List (String × List String))
    (raws : List RawWindow) (r : RawWindow) (hmem : r ∈ raws)
    (hr : Window.init fs r = none) :
    buildWindows fs raws = .error (.keyError "class") := by
  induction raws with
  | nil => cases hmem
  | cons p ps ih =>
    rcases List.mem_cons.mp hmem with rfl | hmem2
    · simp only [buildWindows, hr]
    · simp only [buildWindows]
      cases hp : Window.init fs p with
      | none => rfl
      | some w => simp only [ih hmem2]

/-! The claims. -/

/-- C1, as stated, is false of the code: `handleGlobalQuery` sorts with
`reverse=True`, i.e. by `focusHistoryID` DESCENDING. At the concrete
snapshot `[winRecent, winOld]` (ranks 0 and 5), with a matcher accepting
everything, the output is `[winOld, winRecent]`: the window of strictly
lower rank comes second, not first, refuting "A precedes B whenever
rank(A) < rank(B)". -/
theorem query_order_ascending_refuted :
    queryWindows (fun _ => true) [winRecent, winOld] = [winOld, winRecent] ∧
    winRecent.focusHistoryID < winOld.focusHistoryID ∧
    (queryWindows (fun _ => true) [winRecent, winOld]).indexOf winOld = 0 ∧
    (queryWindows (fun _ => true) [winRecent, winOld]).indexOf winRecent = 1 := by
  refine ⟨rfl, by decide, ?_, ?_⟩ <;> decide

/-- C1 amended: for every matcher (hence every query string, fuzzy or
not) the matched windows are ordered by `focusHistoryID` DESCENDING —
for matched A, B with rank(A) < rank(B), B precedes A, so the
most-recently-focused window (rank 0) appears last — and the sort is
stable: for every rank value k, the windows of rank k appear in the
output in exactly their order in the matched snapshot. -/
theorem query_sorted_by_focus_desc (m : String → Bool) (ws : List Window)
    (k : Int) :
    (queryWindows m ws).Pairwise
      (fun a b => b.focusHistoryID ≤ a.focusHistoryID) ∧
    (queryWindows m ws).filter (fun w => decide (w.focusHistoryID = k)) =
      (matchedWindows m ws).filter (fun w => decide (w.focusHistoryID = k)) :=
  ⟨pairwise_sortByFocusDesc (matchedWindows m ws),
   filter_sortByFocusDesc k (matchedWindows m ws)⟩

/-- C2: on the specification's own example file, the first `Name=` in
the `Desktop Entry` section is captured, but the `Icon=` value is NOT:
`self.icon` is initialised to the window class, so the guard
`not self.icon` on the `Icon=` branch is never true and the icon stays
the class (`"myapp"`), not `"my-icon"`. The code contradicts the claim
(and its own dead `Icon=` branch shows the intent). -/
theorem icon_value_never_captured :
    parseDesktopFile specExampleFs "myapp" = ("My App", "myapp") ∧
      (parseDesktopFile specExampleFs "myapp").2 ≠ "my-icon" := by
  refine ⟨rfl, ?_⟩
  decide

/-- C3, as stated, is false of the code: `list_windows` has no handler,
so at a concrete failing invocation the result is the propagated error,
not the empty window list. -/
theorem tool_failure_empty_result_refuted :
    list_windows [] (.error (.toolFailed "hyprctl failed")) =
      .error (.fetch (.toolFailed "hyprctl failed")) ∧
    list_windows [] (.error (.toolFailed "hyprctl failed")) ≠
      .ok ([] : List Window) :=
  ⟨rfl, fun h => Except.noConfusion h⟩

/-- C3 amended: when the compositor control invocation fails at query
time, `list_windows` propagates the failure (and so does
`handleGlobalQuery`, crashing the query) instead of degrading to an
empty result. -/
theorem tool_failure_propagates (fs : List (String × List String))
    (wfetch : Except FetchError (List (String × Int)))
    (m : String → Bool) (msg : String) :
    list_windows fs (.error (.toolFailed msg)) =
      .error (.fetch (.toolFailed msg)) ∧
    handleGlobalQuery fs (.error (.toolFailed msg)) wfetch m =
      .error (.fetch (.toolFailed msg)) :=
  ⟨rfl, rfl⟩

/-- C4, as stated, is false of the code: when the structured output
cannot be parsed (`json.loads` raises), nothing catches the error, so
the query cycle is not treated as an empty result — the error
propagates. -/
theorem malformed_data_empty_result_refuted :
    list_windows [] (.error (.malformedData "not json")) =
      .error (.fetch (.malformedData "not json")) ∧
    list_windows [] (.error (.malformedData "not json")) ≠
      .ok ([] : List Window) :=
  ⟨rfl, fun h => Except.noConfusion h⟩

/-- C4 amended: when the structured data returned by the compositor
control command cannot be parsed, the parse failure propagates out of
`list_windows` and out of `handleGlobalQuery` (the query raises) rather
than being treated as an empty result. -/
theorem malformed_data_propagates (fs : List (String × List String))
    (wfetch : Except FetchError (List (String × Int)))
    (m : String → Bool) (msg : String) :
    list_windows fs (.error (.malformedData msg)) =
      .error (.fetch (.malformedData msg)) ∧
    handleGlobalQuery fs (.error (.malformedData msg)) wfetch m =
      .error (.fetch (.malformedData msg)) :=
  ⟨rfl, rfl⟩

/-- C5: for every address and workspace id, `_move_window_here` issues
exactly two detached invocations, the focus-window-by-address dispatch
strictly first and the move-to-workspace dispatch second, and the two
are distinct invocations (never one combined call). -/
theorem move_here_focus_then_move (address : String) (workspace_id : Int) :
    move_window_here address workspace_id =
      [focusInvocation address, moveInvocation workspace_id] ∧
    (move_window_here address workspace_id).length = 2 ∧
    focusInvocation address ≠ moveInvocation workspace_id := by
  refine ⟨rfl, rfl, ?_⟩
  intro h
  have h3 : ("focuswindow" : String) = "movetoworkspace" :=
    congrArg (fun l => l.getD 2 "") h
  exact absurd h3 (by decide)

/-- C6: no window whose class is `"albert"` ever appears in the output
of `list_windows` or of `handleGlobalQuery`, for any filesystem, any
snapshot, and any matcher (hence any query string, empty included, in
either fuzzy mode). -/
theorem own_class_never_listed (fs : List (String × List String))
    (fetch : Except FetchError (List RawWindow))
    (wfetch : Except FetchError (List (String × Int)))
    (m : String → Bool) (w : Window) (ws out : List Window)
    (hl : list_windows fs fetch = .ok ws)
    (hq : handleGlobalQuery fs fetch wfetch m = .ok out) :
    (w ∈ ws → w.classs ≠ "albert") ∧ (w ∈ out → w.classs ≠ "albert") := by
  constructor
  · exact fun hw => list_windows_no_albert fs fetch ws hl w hw
  · intro hw
    simp only [handleGlobalQuery] at hq
    cases hlw : list_windows fs fetch with
    | error e => rw [hlw] at hq; exact Except.noConfusion hq
    | ok ws2 =>
      rw [hlw] at hq
      cases hcw : current_workspace_id wfetch with
      | error e => rw [hcw] at hq; exact Except.noConfusion hq
      | ok wsid =>
        rw [hcw] at hq
        injection hq with hq
        subst hq
        exact list_windows_no_albert fs fetch ws2 hlw w
          (queryWindows_subset m ws2 w hw)

/-- C6 witness: a concrete snapshot holding a `"firefox"` window and an
`"albert"` window; the listed output is exactly the firefox window, and
the theorem yields that its class is not `"albert"`. -/
theorem own_class_never_listed_witness : winFirefox.classs ≠ "albert" :=
  (own_class_never_listed []
      (.ok [rawWin "0x10" "firefox" 1, rawWin "0x11" "albert" 0])
      (.ok [("id", 1)]) (fun _ => true) winFirefox [winFirefox] [winFirefox]
      rfl rfl).1
    (List.mem_singleton.mpr rfl)

/-- C7: for a window whose non-empty class has a descriptor file under
neither the exact class name nor its final dot-separated segment, both
the display name and the icon reference resolve to the window class
itself, so neither is empty after enrichment. -/
theorem missing_descriptor_defaults (fs : List (String × List String))
    (r : RawWindow) (cls : String) (w : Window)
    (hcls : r.kwargs.lookup "class" = some cls)
    (hne : cls ≠ "")
    (h1 : fs.lookup (desktopPath cls) = none)
    (h2 : fs.lookup (desktopPath ((pySplit '.' cls).getLastD "")) = none)
    (hw : Window.init fs r = some w) :
    w.name = cls ∧ w.icon = cls ∧ w.name ≠ "" ∧ w.icon ≠ "" := by
  have hpd : parseDesktopFile fs cls = ("", cls) :=
    parseDesktopFile_not_found fs cls h1 h2
  rw [Window.init_eq fs r cls hcls, hpd] at hw
  injection hw with hw
  subst hw
  refine ⟨by simp, rfl, by simpa using hne, hne⟩

/-- C7 witness: class `"myapp.Weird"` with an empty filesystem — no
descriptor file exists under `myapp.Weird.desktop` or `Weird.desktop` —
yields name and icon both `"myapp.Weird"`, nonempty. -/
theorem missing_descriptor_defaults_witness :
    winWeird.name = "myapp.Weird" ∧ winWeird.icon = "myapp.Weird" ∧
      winWeird.name ≠ "" ∧ winWeird.icon ≠ "" :=
  missing_descriptor_defaults [] (rawWin "0x20" "myapp.Weird" 2) "myapp.Weird"
    winWeird rfl (by decide) rfl rfl rfl

/-- C8: a window of the enriched snapshot is in the match output exactly
when the per-query matcher accepts at least one of the five fields
`classs`, `name` (display name), `title`, `initialClass`,
`initialTitle`. -/
theorem match_iff_any_field (m : String → Bool) (ws : List Window)
    (w : Window) :
    w ∈ queryWindows m ws ↔
      w ∈ ws ∧
        (m w.classs || m w.name || m w.title || m w.initialClass ||
          m w.initialTitle) = true := by
  rw [queryWindows, mem_sortByFocusDesc, matchedWindows, List.mem_filter]

/-- C9: the application class must be present under the `"class"` key of
the catch-all keyword arguments: when present, the constructed record's
`classs` equals that value; when absent, construction fails (the
`KeyError`), and `list_windows` fails for any snapshot containing such a
record instead of producing a window with a default class. -/
theorem class_key_required (fs : List (String × List String)) (r : RawWindow) :
    (∀ v, r.kwargs.lookup "class" = some v →
        ∃ w, Window.init fs r = some w ∧ w.classs = v) ∧
    (r.kwargs.lookup "class" = none →
        Window.init fs r = none ∧
        ∀ pre post : List RawWindow,
          list_windows fs (.ok (pre ++ r :: post)) =
            .error (.keyError "class")) := by
  constructor
  · intro v hv
    exact ⟨_, Window.init_eq fs r v hv, rfl⟩
  · intro hnone
    have hinit : Window.init fs r = none := Window.init_none fs r hnone
    refine ⟨hinit, fun pre post => ?_⟩
    exact buildWindows_missing_class fs (pre ++ r :: post) r
      (List.mem_append_right pre (List.mem_cons_self r post)) hinit

/-- C10: a `Name=` line whose value contains further `=` characters is
split on every `=` and only the second piece is captured: with the line
`Name=My App=Pro` in the `Desktop Entry` section, the captured display
name is `My App`, not `My App=Pro`. -/
theorem name_split_takes_second_piece :
    parseDesktopFile eqSignFs "myapp2" = ("My App", "myapp2") ∧
      (parseDesktopFile eqSignFs "myapp2").1 ≠ "My App=Pro" := by
  refine ⟨rfl, ?_⟩
  decide

end HyprSwitcher
